import Mathlib

set_option maxHeartbeats 1000000

/- Shallow embedding of the Amazon web crawler repository (src/src): the
   element-extraction layer (utils.py), authentication and session handling
   (auth.py), pagination and orchestration (crawler.py), and the data
   organisation and summary layer (data.py).  Browser interactions
   (Selenium WebDriver) are modelled as explicit oracles: a lookup that can
   find an element or miss models `find_element` raising
   `NoSuchElementException`, page state across navigation is an explicit
   environment, and wall-clock sleeps are irrelevant to the values computed. -/

/- ------------------------------------------------------------------ -/
/- Python-like string primitives used throughout the embedding.        -/
/- ------------------------------------------------------------------ -/

/-- Bool test that `n` occurs at the start of `h` (Python `h.startswith(n)`). -/
def listStartsWith : List Char → List Char → Bool
  | [], _ => true
  | _ :: _, [] => false
  | a :: n, b :: h => a == b && listStartsWith n h

/-- Bool test that `n` occurs somewhere inside `h` (Python `n in h`). -/
def subList (n : List Char) : List Char → Bool
  | [] => listStartsWith n []
  | c :: h => listStartsWith n (c :: h) || subList n h

/-- Python `needle in hay` on strings. -/
def pyInS (needle hay : String) : Bool := subList needle.toList hay.toList

/-- Python `s.lower()` restricted to the ASCII case mapping (the source only
    compares against ASCII indicator strings). -/
def pyLower (s : List Char) : List Char := s.map Char.toLower

/-- Python `any(char.isdigit() for char in s)` (ASCII digits). -/
def hasDigitStr (s : String) : Bool := s.toList.any Char.isDigit

/- ------------------------------------------------------------------ -/
/- DOM elements as the extractor observes them.                        -/
/- ------------------------------------------------------------------ -/

/-- A located DOM element as the extraction layer observes it: the rendered
    text (`element.text`) and the attributes the source reads via
    `get_attribute` (absent attribute = `none`, Python `None`). -/
structure DomElem where
  text : String
  ariaLabel : Option String
  textContent : Option String
  href : Option String
deriving DecidableEq

/-- DataExtractor._extract_text_by_selectors (utils.py:88-107): try each CSS
    selector in order; `find s = none` models `find_element` raising
    `NoSuchElementException`; a found element whose stripped text is empty is
    treated as a miss; on exhaustion return the sentinel. -/
def extract_text_by_selectors (find : String → Option DomElem) : List String → String
  | [] => "N/A"
  | s :: rest =>
    match find s with
    | some e =>
      let t := e.text.trim
      if t = "" then extract_text_by_selectors find rest else t
    | none => extract_text_by_selectors find rest

/-- A locator lookup that either misses or hits only an element with empty
    stripped text (the premise of the sentinel property). -/
def lookupMissOrEmpty (find : String → Option DomElem) (s : String) : Bool :=
  match find s with
  | none => true
  | some e => decide (e.text.trim = "")

/- ------------------------------------------------------------------ -/
/- Authentication (auth.py).                                           -/
/- ------------------------------------------------------------------ -/

/-- LOGIN_INDICATORS (config.py:136-142). -/
def LOGIN_INDICATORS : List String :=
  ["hello,", "your account", "account & lists", "orders", "prime"]

/-- MANUAL_LOGIN_TIMEOUT (config.py:20): seconds granted to the manual
    interactive login flow. -/
def MANUAL_LOGIN_TIMEOUT : Nat := 180

/-- AuthManager._is_logged_in (auth.py:117-139): some lowercase indicator must
    occur in the lowercased page source AND the lowercased current URL must
    contain neither "signin" nor "ap/signin". -/
def is_logged_in (pageSource currentUrl : String) : Bool :=
  let ps := pyLower pageSource.toList
  let isLoggedIn := LOGIN_INDICATORS.any (fun ind => subList ind.toList ps)
  let cu := pyLower currentUrl.toList
  let notOnSignin := !(subList "signin".toList cu) && !(subList "ap/signin".toList cu)
  isLoggedIn && notOnSignin

/-- Oracle for the observable outcomes of the browser interactions the
    authentication code performs.  Each field is the truth value the live
    session would report at the corresponding probe point. -/
structure AuthEnv where
  /-- os.path.exists(COOKIE_FILE) (auth.py:62). -/
  cookieFileExists : Bool
  /-- json.load on the cookie file succeeds (auth.py:69-70); a parse failure
      raises and is caught by the surrounding except, yielding False. -/
  cookieJsonParses : Bool
  /-- _is_logged_in after injecting cookies and refreshing (auth.py:96). -/
  loggedInAfterCookieReload : Bool
  /-- _is_logged_in after the 180-second manual login window (auth.py:42). -/
  loggedInAfterManualWait : Bool
  /-- _is_logged_in after navigating to the home page (auth.py:149-151),
      i.e. the value of check_session_status's probe. -/
  sessionPageLoggedIn : Bool
deriving DecidableEq

/-- AuthManager.load_cookies (auth.py:54-105): missing file or unparseable
    JSON yields False; otherwise cookies are injected, the page reloaded, and
    the result is the re-checked login state. -/
def load_cookies (env : AuthEnv) : Bool :=
  if !env.cookieFileExists then false
  else if !env.cookieJsonParses then false
  else env.loggedInAfterCookieReload

/-- AuthManager.manual_login_and_save_cookies (auth.py:24-52): waits
    MANUAL_LOGIN_TIMEOUT seconds, then re-checks (and persists cookies on
    success). -/
def manual_login_and_save_cookies (env : AuthEnv) : Bool :=
  env.loggedInAfterManualWait

/-- AuthManager.check_session_status (auth.py:141-154). -/
def check_session_status (env : AuthEnv) : Bool := env.sessionPageLoggedIn

/-- AuthManager.refresh_session (auth.py:156-164): the whole recovery is one
    call to load_cookies. -/
def refresh_session (env : AuthEnv) : Bool := load_cookies env

/-- The session gate at the top of AmazonCrawler.scrape_reviews
    (crawler.py:166-170): `true` means scraping proceeds, `false` means the
    method returns [] (degraded mode). -/
def scrape_reviews_session_gate (env : AuthEnv) : Bool :=
  if !check_session_status env then
    if !refresh_session env then false else true
  else true

/- ------------------------------------------------------------------ -/
/- Pagination (crawler.py:_scrape_review_pages) and star filtering.    -/
/- ------------------------------------------------------------------ -/

/-- A raw review dict as DataExtractor.extract_review_data builds it
    (utils.py:55-86): the five extracted fields. -/
structure RawReview where
  review_text : String
  star_rating : String
  review_date : String
  reviewer_nickname : String
  review_title : String
deriving DecidableEq

/-- Oracle for the page states the pagination walk passes through, indexed by
    the number of pages visited so far.  `pageReviews n` is the list of review
    records extracted on the n-th visited page (empty when no review elements
    are found); `nextButton n` is `none` when `find_next_page_button` returns
    no enabled control, `some b` when a control is found and clicking it
    succeeds iff `b` (a click exception breaks the loop, crawler.py:302-304). -/
structure PageEnv where
  pageReviews : Nat → List RawReview
  nextButton : Nat → Option Bool

/-- Loop body of AmazonCrawler._scrape_review_pages (crawler.py:260-309):
    `remaining` is `max_pages - page`.  Each iteration scrapes the current
    page; a next-page click is attempted only while `page < max_pages - 1`,
    i.e. while `remaining > 1`.  Returns the accumulated reviews together with
    the number of scrape iterations performed. -/
def scrape_review_pages_go (env : PageEnv) : Nat → Nat → List RawReview × Nat
  | 0, _ => ([], 0)
  | n + 1, page =>
    let pageRevs := env.pageReviews page
    if n = 0 then (pageRevs, 1)
    else
      match env.nextButton page with
      | some true =>
        let rest := scrape_review_pages_go env n (page + 1)
        (pageRevs ++ rest.1, rest.2 + 1)
      | some false => (pageRevs, 1)
      | none => (pageRevs, 1)

/-- AmazonCrawler._scrape_review_pages (crawler.py:260-309):
    `for page in range(max_pages)` with early break when no next-page control
    is available or clicking it raises. -/
def scrape_review_pages (env : PageEnv) (max_pages : Nat) : List RawReview × Nat :=
  scrape_review_pages_go env max_pages 0

/-- Oracle for the star-filtered scraping branch of scrape_reviews:
    `applyFilter star` is the Bool result of
    DataExtractor.apply_star_filter(star) (utils.py:283-318), and
    `pageEnvAt i` is the page environment the walk for the i-th requested
    rating runs against (the browser state at that point). -/
structure StarEnv where
  applyFilter : Nat → Bool
  pageEnvAt : Nat → PageEnv

/-- Loop body of the star-filter branch of AmazonCrawler.scrape_reviews
    (crawler.py:238-248): for each requested star, apply_star_filter is
    called and its result discarded (line 243 uses the bare call), then
    _scrape_review_pages runs and its records are appended. -/
def scrape_reviews_filtered_go (env : StarEnv) (max_pages : Nat) :
    Nat → List Nat → List RawReview
  | _, [] => []
  | i, star :: rest =>
    let _applied := env.applyFilter star
    (scrape_review_pages (env.pageEnvAt i) max_pages).1 ++
      scrape_reviews_filtered_go env max_pages (i + 1) rest

/-- The star-filtered branch of AmazonCrawler.scrape_reviews
    (crawler.py:238-248). -/
def scrape_reviews_filtered (env : StarEnv) (star_filter : List Nat)
    (max_pages : Nat) : List RawReview :=
  scrape_reviews_filtered_go env max_pages 0 star_filter

/- ------------------------------------------------------------------ -/
/- URL parsing and percent decoding (urllib.parse, ASCII fragment).    -/
/- ------------------------------------------------------------------ -/

/-- Value of a hex digit, `none` for a non-hex character. -/
def hexVal (c : Char) : Option Nat :=
  if '0' ≤ c ∧ c ≤ '9' then some (c.toNat - '0'.toNat)
  else if 'a' ≤ c ∧ c ≤ 'f' then some (c.toNat - 'a'.toNat + 10)
  else if 'A' ≤ c ∧ c ≤ 'F' then some (c.toNat - 'A'.toNat + 10)
  else none

/-- urllib.parse.unquote on the ASCII fragment: each valid %XX escape becomes
    the character with code XX; invalid escapes are kept verbatim, as in
    Python.  (Multi-byte UTF-8 escape sequences are out of scope; the source
    only ever handles ASCII product URLs.) -/
def pyUnquoteList : List Char → List Char
  | [] => []
  | '%' :: a :: b :: t =>
    match hexVal a, hexVal b with
    | some x, some y => Char.ofNat (16 * x + y) :: pyUnquoteList t
    | _, _ => '%' :: pyUnquoteList (a :: b :: t)
  | c :: rest => c :: pyUnquoteList rest

/-- urllib.parse.unquote_plus: replace `+` by space, then percent-decode
    (used by parse_qs on names and values). -/
def pyUnquotePlusList (l : List Char) : List Char :=
  pyUnquoteList (l.map (fun c => if c = '+' then ' ' else c))

/-- Everything strictly before the first occurrence of `c`. -/
def takeBeforeChar (c : Char) : List Char → List Char
  | [] => []
  | x :: rest => if x = c then [] else x :: takeBeforeChar c rest

/-- Everything strictly after the first occurrence of `c`, or `none` when `c`
    does not occur. -/
def dropThroughChar (c : Char) : List Char → Option (List Char)
  | [] => none
  | x :: rest => if x = c then some rest else dropThroughChar c rest

/-- The query component as urllib.parse.urlparse extracts it: strip the
    fragment at the first `#`, then take what follows the first `?` (empty
    when there is no `?`). -/
def queryOf (url : List Char) : List Char :=
  match dropThroughChar '?' (takeBeforeChar '#' url) with
  | some q => q
  | none => []

/-- Split on every occurrence of `sep` (Python str.split(sep)). -/
def splitOnChar (sep : Char) : List Char → List (List Char)
  | [] => [[]]
  | c :: rest =>
    if c = sep then [] :: splitOnChar sep rest
    else
      match splitOnChar sep rest with
      | [] => [[c]]
      | g :: gs => (c :: g) :: gs

/-- Split at the first occurrence of `c`, `none` when `c` does not occur. -/
def splitAtFirstChar (c : Char) : List Char → Option (List Char × List Char)
  | [] => none
  | x :: rest =>
    if x = c then some ([], rest)
    else (splitAtFirstChar c rest).map (fun p => (x :: p.1, p.2))

/-- urllib.parse.parse_qsl with the default options: split the query on `&`,
    skip empty fields, fields without `=` and fields with an empty value, and
    unquote_plus both names and values.  parse_qs groups these pairs by name
    preserving order. -/
def parse_qsl (query : List Char) : List (List Char × List Char) :=
  (splitOnChar '&' query).filterMap (fun field =>
    if field.isEmpty then none
    else
      match splitAtFirstChar '=' field with
      | none => none
      | some (name, value) =>
        if value.isEmpty then none
        else some (pyUnquotePlusList name, pyUnquotePlusList value))

/-- `parse_qs(query)[name][0]`: the first value bound to `name`, `none` when
    the name is absent (`name in query_params` false). -/
def firstParamValue (name : List Char) (query : List Char) : Option (List Char) :=
  (parse_qsl query).findSome? (fun p => if p.1 = name then some p.2 else none)

/- ------------------------------------------------------------------ -/
/- Product URL extraction (utils.py:_extract_product_url).             -/
/- ------------------------------------------------------------------ -/

/-- SELECTORS["product_url"] (config.py:50-61). -/
def PRODUCT_URL_SELECTORS : List String :=
  ["h2 a",
   "a[href*=\"/dp/\"]",
   "a[href*=\"/gp/product/\"]",
   ".s-size-mini a",
   "a[data-hook=\"product-link\"]",
   "a[href*=\"amazon.com\"]",
   "a[href*=\"/product/\"]",
   ".s-link-style a",
   "a[href*=\"amazon.com/dp/\"]",
   "a[href*=\"amazon.com/gp/product/\"]"]

/-- `'/dp/' in href or '/gp/product/' in href` (utils.py:128 and 155). -/
def hasProductMarker (s : List Char) : Bool :=
  subList "/dp/".toList s || subList "/gp/product/".toList s

/-- First phase of _extract_product_url (utils.py:123-134): try each direct
    URL selector; a found link with a truthy href containing a product-path
    marker is returned, anything else (lookup failure, missing href, marker
    absent) falls through to the next selector. -/
def tryDirectSelectors (find : String → Option DomElem) : List String → Option String
  | [] => none
  | s :: rest =>
    match find s with
    | some e =>
      match e.href with
      | some h =>
        if h ≠ "" && hasProductMarker h.toList then some h
        else tryDirectSelectors find rest
      | none => tryDirectSelectors find rest
    | none => tryDirectSelectors find rest

/-- Second phase of _extract_product_url (utils.py:138-165): scan all anchor
    descendants in order.  An anchor whose href contains "sspa/click" is a
    redirect wrapper: its `url=` query parameter is percent-decoded and
    returned when the decoded value contains a product-path marker (anything
    else about a wrapper anchor falls through to the next anchor).  A
    non-wrapper anchor is returned when its href directly contains a marker. -/
def scanLinks : List DomElem → Option String
  | [] => none
  | link :: rest =>
    match link.href with
    | some h =>
      if h ≠ "" && subList "sspa/click".toList h.toList then
        match firstParamValue "url".toList (queryOf h.toList) with
        | some enc =>
          let dec := pyUnquoteList enc
          if hasProductMarker dec then some (String.mk dec) else scanLinks rest
        | none => scanLinks rest
      else if h ≠ "" && hasProductMarker h.toList then some h
      else scanLinks rest
    | none => scanLinks rest

/-- What one anchor yields in the scan, stated per-anchor: the claim's
    two-tier rule with the wrapper pattern the code actually uses
    ("sspa/click" in the address).  Used to compare the anchor scan against
    the amended specification wording. -/
def anchorYieldAmended (link : DomElem) : Option String :=
  match link.href with
  | some h =>
    if h ≠ "" && subList "sspa/click".toList h.toList then
      match firstParamValue "url".toList (queryOf h.toList) with
      | some enc =>
        let dec := pyUnquoteList enc
        if hasProductMarker dec then some (String.mk dec) else none
      | none => none
    else if h ≠ "" && hasProductMarker h.toList then some h
    else none
  | none => none

/-- DataExtractor._extract_product_url (utils.py:109-170): direct selectors
    first, then the anchor scan, then the sentinel.  `index` is only used for
    progress printing in the source. -/
def extract_product_url (find : String → Option DomElem) (links : List DomElem)
    (index : Nat) : String :=
  let _ := index
  match tryDirectSelectors find PRODUCT_URL_SELECTORS with
  | some h => h
  | none =>
    match scanLinks links with
    | some u => u
    | none => "N/A"

/- ------------------------------------------------------------------ -/
/- Record builders (utils.py: extract_product_data, extract_review_data). -/
/- ------------------------------------------------------------------ -/

/-- SELECTORS["product_title"] (config.py:44-49). -/
def PRODUCT_TITLE_SELECTORS : List String :=
  ["h2 a span", "h2 span", ".s-color-base", "a[href*=\"/dp/\"] span"]

/-- SELECTORS["product_price"] (config.py:62-66). -/
def PRODUCT_PRICE_SELECTORS : List String :=
  [".a-price-whole", ".a-price .a-offscreen", ".a-price-range"]

/-- SELECTORS["product_rating"] (config.py:67-84). -/
def PRODUCT_RATING_SELECTORS : List String :=
  [".a-icon-alt",
   "[data-hook=\"rating-out-of-text\"]",
   ".a-icon-star-small",
   ".a-icon-star",
   ".a-star-mini",
   ".a-star-small",
   ".a-icon-star-small .a-icon-alt",
   ".a-icon-star .a-icon-alt",
   ".a-star-mini .a-icon-alt",
   ".a-star-small .a-icon-alt",
   "[aria-label*=\"stars\"]",
   "[aria-label*=\"star\"]",
   ".a-icon-star-small[aria-label]",
   ".a-icon-star[aria-label]",
   ".a-star-mini[aria-label]",
   ".a-star-small[aria-label]"]

/-- SELECTORS["reviewer_name"] (config.py:101-107). -/
def REVIEWER_NAME_SELECTORS : List String :=
  ["[data-hook=\"review-author\"]",
   ".a-profile-name",
   ".review-byline .author",
   ".cr-original-review-item .a-profile-name",
   "[data-hook=\"review-author\"] .a-profile-name"]

/-- SELECTORS["review_title"] (config.py:108-119). -/
def REVIEW_TITLE_SELECTORS : List String :=
  ["[data-hook=\"review-title\"] span",
   "[data-hook=\"review-title\"]",
   ".review-title",
   ".cr-original-review-item .review-title",
   "a[data-hook=\"review-title\"]",
   "[data-hook=\"review-title\"] a",
   ".a-size-base.review-title",
   ".review-title-text",
   "h3[data-hook=\"review-title\"]",
   ".a-text-bold.review-title"]

/-- SELECTORS["review_text"] (config.py:92-94). -/
def REVIEW_TEXT_SELECTORS : List String := ["[data-hook=\"review-body\"] span"]

/-- SELECTORS["review_date"] (config.py:98-100). -/
def REVIEW_DATE_SELECTORS : List String := ["[data-hook=\"review-date\"]"]

/-- DataExtractor._extract_product_rating inner loop (utils.py:172-197):
    for each selector, a found element yields, in order of preference, its
    stripped text, its aria-label, or its stripped textContent — whichever is
    first to be truthy and contain a digit; otherwise the loop continues. -/
def extract_product_rating_go (find : String → Option DomElem) :
    List String → String
  | [] => "N/A"
  | s :: rest =>
    match find s with
    | some e =>
      let rt := e.text.trim
      if rt ≠ "" && hasDigitStr rt then rt
      else
        match e.ariaLabel with
        | some a =>
          if a ≠ "" && hasDigitStr a then a
          else
            match e.textContent with
            | some t =>
              if t ≠ "" && hasDigitStr t then t.trim
              else extract_product_rating_go find rest
            | none => extract_product_rating_go find rest
        | none =>
          match e.textContent with
          | some t =>
            if t ≠ "" && hasDigitStr t then t.trim
            else extract_product_rating_go find rest
          | none => extract_product_rating_go find rest
    | none => extract_product_rating_go find rest

/-- DataExtractor._extract_product_rating (utils.py:172-197). -/
def extract_product_rating (find : String → Option DomElem) : String :=
  extract_product_rating_go find PRODUCT_RATING_SELECTORS

/-- A search-result element as the product extractor observes it: scoped
    selector lookup plus the list of all anchor descendants
    (`find_elements(By.TAG_NAME, 'a')`). -/
structure ProductElement where
  find : String → Option DomElem
  links : List DomElem

/-- DataExtractor.extract_product_data (utils.py:23-53): builds the product
    dict keyed `title`, `price`, `rating`, `url` — there is no rank key, the
    `index` argument is only used for progress printing. -/
def extract_product_data (el : ProductElement) (index : Nat) :
    List (String × String) :=
  [("title", extract_text_by_selectors el.find PRODUCT_TITLE_SELECTORS),
   ("price", extract_text_by_selectors el.find PRODUCT_PRICE_SELECTORS),
   ("rating", extract_product_rating el.find),
   ("url", extract_product_url el.find el.links index)]

/-- Python `s.split()`: split on whitespace runs, dropping empty pieces. -/
def pySplitWs (s : String) : List String :=
  (s.split Char.isWhitespace).filter (fun t => t ≠ "")

/-- A review element as the review extractor observes it: scoped selector
    lookup plus all descendant elements (`find_elements(By.CSS_SELECTOR, '*')`
    used by the review-title fallback). -/
structure ReviewElement where
  find : String → Option DomElem
  allElements : List DomElem

/-- DataExtractor._extract_rating (utils.py:199-206): the star rating is the
    first whitespace-separated token of the review-star element's textContent;
    a lookup failure, falsy textContent, or empty token list (IndexError,
    caught) yields the sentinel. -/
def extract_rating (find : String → Option DomElem) : String :=
  match find "[data-hook=\"review-star-rating\"]" with
  | some e =>
    match e.textContent with
    | some t =>
      if t ≠ "" then
        match pySplitWs t with
        | tok :: _ => tok
        | [] => "N/A"
      else "N/A"
    | none => "N/A"
  | none => "N/A"

/-- DataExtractor._extract_reviewer_name (utils.py:208-218): same shape as the
    generic selector loop (any exception is caught and treated as a miss). -/
def extract_reviewer_name (find : String → Option DomElem) : String :=
  extract_text_by_selectors find REVIEWER_NAME_SELECTORS

/-- Fallback phase of _extract_review_title (utils.py:232-241): the first
    descendant whose stripped text is non-empty and shorter than 200
    characters. -/
def review_title_fallback : List DomElem → String
  | [] => "N/A"
  | e :: rest =>
    let t := e.text.trim
    if t ≠ "" && t.length < 200 then t else review_title_fallback rest

/-- Selector loop of _extract_review_title (utils.py:223-230), as an Option so
    that exhaustion (rather than a sentinel-valued hit) triggers the fallback. -/
def review_title_selector_loop (find : String → Option DomElem) :
    List String → Option String
  | [] => none
  | s :: rest =>
    match find s with
    | some e =>
      let t := e.text.trim
      if t ≠ "" then some t else review_title_selector_loop find rest
    | none => review_title_selector_loop find rest

/-- DataExtractor._extract_review_title (utils.py:220-243): specific selectors
    first, then the any-short-text fallback. -/
def extract_review_title (el : ReviewElement) : String :=
  match review_title_selector_loop el.find REVIEW_TITLE_SELECTORS with
  | some t => t
  | none => review_title_fallback el.allElements

/-- DataExtractor.extract_review_data (utils.py:55-86): builds the review dict
    with exactly these five keys in insertion order. -/
def extract_review_data (el : ReviewElement) : List (String × String) :=
  [("review_text", extract_text_by_selectors el.find REVIEW_TEXT_SELECTORS),
   ("star_rating", extract_rating el.find),
   ("review_date", extract_text_by_selectors el.find REVIEW_DATE_SELECTORS),
   ("reviewer_nickname", extract_reviewer_name el.find),
   ("review_title", extract_review_title el)]

/-- Python dict assignment `d[k] = v` on the association-list view: overwrite
    an existing binding in place, otherwise append the new key. -/
def dictSet (d : List (String × String)) (k v : String) :
    List (String × String) :=
  if d.any (fun e => e.1 == k) then
    d.map (fun e => if e.1 == k then (k, v) else e)
  else d ++ [(k, v)]

/-- The orchestrator's review enrichment (crawler.py:346-348):
    `review['product_title'] = product['title']` and
    `review['product_url'] = product['url']` — nothing else is added. -/
def enrich_review_dict (r : List (String × String)) (title url : String) :
    List (String × String) :=
  dictSet (dictSet r "product_title" title) "product_url" url

/- ------------------------------------------------------------------ -/
/- Data processing (data.py).                                          -/
/- ------------------------------------------------------------------ -/

/-- A raw product dict as extract_product_data builds it, in the typed view
    used by the downstream pipeline (the four keys are always present). -/
structure RawProduct where
  title : String
  price : String
  rating : String
  url : String
deriving DecidableEq

/-- A raw review enriched by the orchestrator with its product's title and
    URL (crawler.py:346-348). -/
structure EnrichedReview where
  review_text : String
  star_rating : String
  review_date : String
  reviewer_nickname : String
  review_title : String
  product_title : String
  product_url : String
deriving DecidableEq

/-- The orchestrator's enrichment on the typed view. -/
def enrich_review (r : RawReview) (p : RawProduct) : EnrichedReview :=
  { review_text := r.review_text
    star_rating := r.star_rating
    review_date := r.review_date
    reviewer_nickname := r.reviewer_nickname
    review_title := r.review_title
    product_title := p.title
    product_url := p.url }

/-- A processed product record (data.py:119-144).  `scraped_at` is the
    datetime.now() timestamp, threaded as an explicit parameter since
    wall-clock time is outside the embedding. -/
structure Product where
  product_id : Nat
  search_keyword : String
  title : String
  price : String
  rating : String
  url : String
  scraped_at : String
deriving DecidableEq

/-- A processed review record (data.py:146-173). -/
structure Review where
  review_id : Nat
  product_title : String
  product_url : String
  review_text : String
  star_rating : String
  review_date : String
  reviewer_nickname : String
  review_title : String
  scraped_at : String
deriving DecidableEq

/-- Loop of DataProcessor.process_products_data (data.py:130-142):
    `enumerate(products, 1)` assigns 1-based product_id ordinals. -/
def process_products_go (keyword now : String) :
    Nat → List RawProduct → List Product
  | _, [] => []
  | i, p :: rest =>
    { product_id := i + 1
      search_keyword := keyword
      title := p.title
      price := p.price
      rating := p.rating
      url := p.url
      scraped_at := now } :: process_products_go keyword now (i + 1) rest

/-- DataProcessor.process_products_data (data.py:119-144). -/
def process_products_data (products : List RawProduct) (keyword now : String) :
    List Product :=
  process_products_go keyword now 0 products

/-- Loop of DataProcessor.process_reviews_data (data.py:157-171):
    `enumerate(reviews, 1)` assigns 1-based review_id ordinals; the reviews
    reaching it are already enriched, so the `product_info` fallback of the
    source's `.get` calls never fires. -/
def process_reviews_go (now : String) : Nat → List EnrichedReview → List Review
  | _, [] => []
  | i, r :: rest =>
    { review_id := i + 1
      product_title := r.product_title
      product_url := r.product_url
      review_text := r.review_text
      star_rating := r.star_rating
      review_date := r.review_date
      reviewer_nickname := r.reviewer_nickname
      review_title := r.review_title
      scraped_at := now } :: process_reviews_go now (i + 1) rest

/-- DataProcessor.process_reviews_data (data.py:146-173). -/
def process_reviews_data (reviews : List EnrichedReview) (now : String) :
    List Review :=
  process_reviews_go now 0 reviews

/-- One value of the organized mapping (data.py:191-194): the product record
    plus its reviews grouped by star bucket (insertion-ordered dict, modelled
    as an association list). -/
structure ProductEntry where
  product_data : Product
  reviews : List (String × List Review)
deriving DecidableEq

/-- Product-entry creation loop (data.py:189-194): keys "product_1",
    "product_2", ... in listing order, each with an empty review mapping. -/
def initEntriesGo : Nat → List Product → List (String × ProductEntry)
  | _, [] => []
  | i, p :: rest =>
    ("product_" ++ toString (i + 1), { product_data := p, reviews := [] }) ::
      initEntriesGo (i + 1) rest

/-- The initial organized mapping (data.py:189-194). -/
def initEntries (products : List Product) : List (String × ProductEntry) :=
  initEntriesGo 0 products

/-- The review-to-product matching loop (data.py:203-209): the first entry
    whose product title equals the review's product_title OR whose product url
    equals the review's product_url. -/
def findMatchKey (entries : List (String × ProductEntry)) (r : Review) :
    Option String :=
  match entries with
  | [] => none
  | e :: rest =>
    if r.product_title == e.2.product_data.title
        || r.product_url == e.2.product_data.url then some e.1
    else findMatchKey rest r

/-- Star bucket of a review (data.py:212-222).  `floatToIntStr` abstracts the
    `str(int(float(star_rating)))` conversion, whose floating-point parsing is
    outside the embedding: `some k` is a successful conversion to `k`, `none`
    models the except branch, which keeps the raw string. -/
def star_key_of (floatToIntStr : String → Option String) (star_rating : String) :
    String :=
  if star_rating ≠ "N/A" then
    match floatToIntStr star_rating with
    | some k => k
    | none => star_rating
  else "unknown"

/-- Appending a review to its star bucket (data.py:224-228): create the bucket
    if absent, then append. -/
def appendReviewBucket (buckets : List (String × List Review)) (k : String)
    (r : Review) : List (String × List Review) :=
  if buckets.any (fun b => b.1 == k) then
    buckets.map (fun b => if b.1 == k then (b.1, b.2 ++ [r]) else b)
  else buckets ++ [(k, [r])]

/-- One iteration of the review-grouping loop (data.py:197-228).  The matched
    key is always of the form "product_i", a non-empty string, so the source's
    truthiness test `if matched_product_key:` coincides with `some`. -/
def addReviewToEntries (floatToIntStr : String → Option String)
    (entries : List (String × ProductEntry)) (r : Review) :
    List (String × ProductEntry) :=
  match findMatchKey entries r with
  | some k =>
    entries.map (fun e =>
      if e.1 == k then
        (e.1, { product_data := e.2.product_data
                reviews := appendReviewBucket e.2.reviews
                  (star_key_of floatToIntStr r.star_rating) r })
      else e)
  | none => entries

/-- DataProcessor.organize_products_with_reviews (data.py:175-230). -/
def organize_products_with_reviews (floatToIntStr : String → Option String)
    (products : List Product) (reviews : List Review) :
    List (String × ProductEntry) :=
  reviews.foldl (addReviewToEntries floatToIntStr) (initEntries products)

/-- The key/product skeleton of an organized mapping: everything the matching
    loop reads (review grouping never changes it). -/
def entryShape (entries : List (String × ProductEntry)) :
    List (String × Product) :=
  entries.map (fun e => (e.1, e.2.product_data))

/-- Read a star bucket of an entry (Python `entry['reviews'][k]`, empty when
    the bucket is absent). -/
def bucketGet (buckets : List (String × List Review)) (k : String) :
    List Review :=
  match buckets with
  | [] => []
  | b :: rest => if b.1 == k then b.2 else bucketGet rest k

/-- The summary record (data.py:256-261).  `scraped_at` is again the threaded
    timestamp. -/
structure Summary where
  total_products : Nat
  total_reviews : Nat
  star_distribution : List (String × Nat)
  scraped_at : String
deriving DecidableEq

/-- Star-distribution update (data.py:252-254): initialise an absent bucket to
    zero, then add the bucket's review count. -/
def bumpStar (dist : List (String × Nat)) (k : String) (n : Nat) :
    List (String × Nat) :=
  if dist.any (fun b => b.1 == k) then
    dist.map (fun b => if b.1 == k then (b.1, b.2 + n) else b)
  else dist ++ [(k, n)]

/-- Inner fold of get_data_summary_from_organized over one entry's buckets. -/
def summaryFoldBuckets (acc : Nat × List (String × Nat)) :
    List (String × List Review) → Nat × List (String × Nat)
  | [] => acc
  | b :: rest =>
    summaryFoldBuckets (acc.1 + b.2.length, bumpStar acc.2 b.1 b.2.length) rest

/-- Outer fold of get_data_summary_from_organized over all entries. -/
def summaryFoldEntries (acc : Nat × List (String × Nat)) :
    List (String × ProductEntry) → Nat × List (String × Nat)
  | [] => acc
  | e :: rest => summaryFoldEntries (summaryFoldBuckets acc e.2.reviews) rest

/-- DataProcessor.get_data_summary_from_organized (data.py:232-263). -/
def get_data_summary_from_organized (entries : List (String × ProductEntry))
    (now : String) : Summary :=
  let acc := summaryFoldEntries (0, []) entries
  { total_products := entries.length
    total_reviews := acc.1
    star_distribution := acc.2
    scraped_at := now }

/- ------------------------------------------------------------------ -/
/- Persistence and the crawl orchestrator (data.py save_*, crawler.py). -/
/- ------------------------------------------------------------------ -/

/-- The saved-files dict of DataProcessor.save_data (data.py:89-117): a format
    key is present exactly when that format's save ran without raising. -/
structure SavedFiles where
  json : Option String
  csv : Option String
deriving DecidableEq

/-- DataProcessor.save_data (data.py:89-117) with "both" semantics: each
    format is attempted independently; `jsonOk`/`csvOk` are oracles for the
    two writes succeeding.  File names follow save_to_json/save_to_csv
    (data.py:45-46, 70-71). -/
def save_data (jsonOk csvOk : Bool) (output_dir filename timestamp
    format_type : String) : SavedFiles :=
  { json :=
      if (format_type == "json" || format_type == "both") && jsonOk then
        some (output_dir ++ "/" ++ filename ++ "_" ++ timestamp ++ ".json")
      else none
    csv :=
      if (format_type == "csv" || format_type == "both") && csvOk then
        some (output_dir ++ "/" ++ filename ++ "_" ++ timestamp ++ ".csv")
      else none }

/-- Oracle for one whole crawl run: what the search step yields, what
    scrape_reviews returns per product position, the abstracted float
    conversion, the two save outcomes, and the run timestamp. -/
structure CrawlEnv where
  searchResults : List RawProduct
  reviewsFor : Nat → List RawReview
  floatToIntStr : String → Option String
  jsonOk : Bool
  csvOk : Bool
  now : String

/-- The dict returned by AmazonCrawler.crawl_amazon (crawler.py:371-376 and
    the zero-product short-circuit at 331-333): `summary = none` models the
    literal empty dict `{}` of the short-circuit, and `savedFiles = none`
    models the absence of the 'saved_files' key there. -/
structure CrawlResult where
  products : List Product
  reviews : List Review
  summary : Option Summary
  savedFiles : Option SavedFiles

/-- The per-product review-collection loop of crawl_amazon
    (crawler.py:336-351): products without a resolvable URL are skipped, all
    others contribute their scraped reviews enriched with the product's title
    and URL. -/
def collect_reviews_go (env : CrawlEnv) : Nat → List RawProduct →
    List EnrichedReview
  | _, [] => []
  | i, p :: rest =>
    (if p.url == "N/A" then []
     else (env.reviewsFor i).map (fun r => enrich_review r p)) ++
      collect_reviews_go env (i + 1) rest

/-- AmazonCrawler.crawl_amazon (crawler.py:311-376). -/
def crawl_amazon (env : CrawlEnv) (keyword : String) : CrawlResult :=
  match env.searchResults with
  | [] => { products := [], reviews := [], summary := none, savedFiles := none }
  | p :: ps =>
    let products := p :: ps
    let all_reviews := collect_reviews_go env 0 products
    let processed_products := process_products_data products keyword env.now
    let processed_reviews := process_reviews_data all_reviews env.now
    let organized := organize_products_with_reviews env.floatToIntStr
      processed_products processed_reviews
    let saved := save_data env.jsonOk env.csvOk "output"
      ("amazon_reviews_" ++ keyword) env.now "both"
    let summary := get_data_summary_from_organized organized env.now
    { products := processed_products
      reviews := processed_reviews
      summary := some summary
      savedFiles := some saved }

/- ------------------------------------------------------------------ -/
/- Helper lemmas.                                                      -/
/- ------------------------------------------------------------------ -/

theorem listStartsWith_map (f : Char → Char) :
    ∀ n h : List Char, listStartsWith n h = true →
      listStartsWith (n.map f) (h.map f) = true := by
  intro n
  induction n with
  | nil => intro h _; rfl
  | cons a n ih =>
    intro h hs
    cases h with
    | nil => simp [listStartsWith] at hs
    | cons b t =>
      simp only [listStartsWith, Bool.and_eq_true, beq_iff_eq] at hs
      simp only [List.map, listStartsWith, Bool.and_eq_true, beq_iff_eq]
      exact ⟨by rw [hs.1], ih t hs.2⟩

theorem subList_map (f : Char → Char) (n : List Char) :
    ∀ h : List Char, subList n h = true →
      subList (n.map f) (h.map f) = true := by
  intro h
  induction h with
  | nil =>
    intro hs
    simp only [subList] at hs ⊢
    simpa using listStartsWith_map f n [] hs
  | cons c t ih =>
    intro hs
    simp only [subList, Bool.or_eq_true] at hs
    simp only [List.map, subList, Bool.or_eq_true]
    cases hs with
    | inl h1 =>
      exact Or.inl (by simpa using listStartsWith_map f n (c :: t) h1)
    | inr h2 => exact Or.inr (ih h2)

theorem scrape_go_count_le (env : PageEnv) :
    ∀ n page, (scrape_review_pages_go env n page).2 ≤ n := by
  intro n
  induction n with
  | zero => intro page; simp [scrape_review_pages_go]
  | succ n ih =>
    intro page
    by_cases h0 : n = 0
    · simp [scrape_review_pages_go, h0]
    · simp only [scrape_review_pages_go, h0, if_false]
      cases env.nextButton page with
      | none => simp
      | some b =>
        cases b
        · simp
        · simpa using Nat.succ_le_succ (ih (page + 1))

/- ------------------------------------------------------------------ -/
/- Claim theorems.                                                     -/
/- ------------------------------------------------------------------ -/

/-- C1: if every locator of a chain misses (NoSuchElementException) or hits
    only an element whose stripped text is empty, the field extraction
    returns the sentinel "N/A"; being a total Lean function it can neither
    raise nor return a null value. -/
theorem C1_chain_exhaustion_sentinel (find : String → Option DomElem)
    (sels : List String)
    (h : ∀ s ∈ sels, lookupMissOrEmpty find s = true) :
    extract_text_by_selectors find sels = "N/A" := by
  induction sels with
  | nil => rfl
  | cons s rest ih =>
    have hs := h s (List.mem_cons_self s rest)
    have hrest : ∀ x ∈ rest, lookupMissOrEmpty find x = true :=
      fun x hx => h x (List.mem_cons_of_mem s hx)
    simp only [extract_text_by_selectors]
    cases hfind : find s with
    | none => exact ih hrest
    | some e =>
      simp only [lookupMissOrEmpty, hfind] at hs
      have ht : e.text.trim = "" := of_decide_eq_true hs
      simp [ht, ih hrest]

/-- C1 witness: a two-locator chain where every lookup misses. -/
theorem C1_chain_exhaustion_sentinel_witness :
    (∀ s ∈ ["h2 a span", "h2 span"],
      lookupMissOrEmpty (fun _ => none) s = true) ∧
    extract_text_by_selectors (fun _ => none) ["h2 a span", "h2 span"] =
      "N/A" :=
  ⟨by decide, C1_chain_exhaustion_sentinel _ _ (by decide)⟩

/-- C2: the review-page walk performs at most `max_pages` scrape iterations
    for every page environment — in particular even when a next-page control
    is found and enabled on every page — because the cap is the range of the
    iteration itself. -/
theorem C2_pagination_cap (env : PageEnv) (max_pages : Nat) :
    (scrape_review_pages env max_pages).2 ≤ max_pages :=
  scrape_go_count_le env max_pages 0

/-- C3 counterexample: a session state in which the cookie tier fails (no
    cookie file) while the interactive manual-login flow would succeed, yet
    the scrape proceeds in degraded mode — the recovery path never invokes
    the interactive tier, contradicting "only if both tiers fail does the
    operation proceed in degraded mode". -/
theorem C3_no_interactive_tier_cex :
    scrape_reviews_session_gate ⟨false, true, false, true, false⟩ = false ∧
    manual_login_and_save_cookies ⟨false, true, false, true, false⟩ = true ∧
    MANUAL_LOGIN_TIMEOUT = 180 := by
  exact ⟨rfl, rfl, rfl⟩

/-- C3 amended: when the session check fails, recovery is single-tier — the
    gate's outcome is exactly the cookie restoration's outcome, and it is
    independent of whether the interactive manual-login window would
    succeed. -/
theorem C3_single_tier_recovery (env : AuthEnv)
    (h : check_session_status env = false) :
    scrape_reviews_session_gate env = load_cookies env ∧
    ∀ b, scrape_reviews_session_gate
        { env with loggedInAfterManualWait := b } =
      scrape_reviews_session_gate env := by
  constructor
  · cases hl : load_cookies env <;>
      simp [scrape_reviews_session_gate, refresh_session, h, hl]
  · intro b
    cases env
    simp [scrape_reviews_session_gate, check_session_status, refresh_session,
      load_cookies]

/-- C3 witness for the amended claim. -/
theorem C3_single_tier_recovery_witness :
    check_session_status ⟨false, true, false, true, false⟩ = false ∧
    scrape_reviews_session_gate ⟨false, true, false, true, false⟩ =
      load_cookies ⟨false, true, false, true, false⟩ :=
  ⟨rfl, (C3_single_tier_recovery ⟨false, true, false, true, false⟩ rfl).1⟩

/-- C4 counterexample: the filter control for rating 4 fails to apply, yet the
    walk for that rating contributes one review record (whatever the current,
    unfiltered page shows) — not zero. -/
theorem C4_failed_filter_still_scrapes_cex :
    StarEnv.applyFilter
      ⟨fun _ => false,
       fun _ => ⟨fun _ => [⟨"great", "5.0", "July 1", "alice", "Nice"⟩],
                 fun _ => none⟩⟩ 4 = false ∧
    scrape_reviews_filtered
      ⟨fun _ => false,
       fun _ => ⟨fun _ => [⟨"great", "5.0", "July 1", "alice", "Nice"⟩],
                 fun _ => none⟩⟩ [4] 1 =
      [⟨"great", "5.0", "July 1", "alice", "Nice"⟩] :=
  ⟨rfl, rfl⟩

/-- C4 amended: the result of apply_star_filter is discarded — the collected
    reviews are independent of the filter outcomes, every requested rating's
    walk runs regardless, and the result is the concatenation of the walks at
    positions 0..len-1. -/
theorem C4_filter_result_ignored (ap ap' : Nat → Bool) (pe : Nat → PageEnv)
    (sf : List Nat) (mp : Nat) :
    scrape_reviews_filtered ⟨ap, pe⟩ sf mp =
      scrape_reviews_filtered ⟨ap', pe⟩ sf mp ∧
    scrape_reviews_filtered ⟨ap, pe⟩ sf mp =
      ((List.range sf.length).map
        (fun i => (scrape_review_pages (pe i) mp).1)).flatten := by
  have go_eq : ∀ (a a' : Nat → Bool) (i : Nat) (l : List Nat),
      scrape_reviews_filtered_go ⟨a, pe⟩ mp i l =
        scrape_reviews_filtered_go ⟨a', pe⟩ mp i l := by
    intro a a' i l
    induction l generalizing i with
    | nil => rfl
    | cons s rest ih => simp [scrape_reviews_filtered_go, ih]
  have go_join : ∀ (a : Nat → Bool) (i : Nat) (l : List Nat),
      scrape_reviews_filtered_go ⟨a, pe⟩ mp i l =
        ((List.range l.length).map
          (fun j => (scrape_review_pages (pe (i + j)) mp).1)).flatten := by
    intro a i l
    induction l generalizing i with
    | nil => rfl
    | cons s rest ih =>
      have hfun : (fun j => (scrape_review_pages (pe (i + 1 + j)) mp).1) =
          ((fun j => (scrape_review_pages (pe (i + j)) mp).1) ∘ Nat.succ) := by
        funext j
        simp only [Function.comp]
        rw [show i + 1 + j = i + Nat.succ j by omega]
      simp only [scrape_reviews_filtered_go, List.length_cons,
        List.range_succ_eq_map, List.map_cons, List.map_map,
        List.flatten_cons, Nat.add_zero]
      rw [ih (i + 1), hfun]
  refine ⟨go_eq ap ap' 0 sf, ?_⟩
  rw [show scrape_reviews_filtered ⟨ap, pe⟩ sf mp =
    scrape_reviews_filtered_go ⟨ap, pe⟩ mp 0 sf from rfl, go_join ap 0 sf]
  simp

/-- C5 counterexample: with zero search results the crawl returns the literal
    empty summary (modelled `none`, not a summary with zero totals) and skips
    the save step entirely (no saved-files entry), while products and reviews
    are indeed empty. -/
theorem C5_zero_products_cex :
    (crawl_amazon ⟨[], fun _ => [], fun _ => none, true, true,
      "20240101_000000"⟩ "wireless mouse").summary = none ∧
    (crawl_amazon ⟨[], fun _ => [], fun _ => none, true, true,
      "20240101_000000"⟩ "wireless mouse").savedFiles = none ∧
    (crawl_amazon ⟨[], fun _ => [], fun _ => none, true, true,
      "20240101_000000"⟩ "wireless mouse").products = [] ∧
    (crawl_amazon ⟨[], fun _ => [], fun _ => none, true, true,
      "20240101_000000"⟩ "wireless mouse").reviews = [] :=
  ⟨rfl, rfl, rfl, rfl⟩

/-- C5 amended: zero products short-circuits the crawl with empty product and
    review lists, the literal empty summary dict, and without writing any
    output file. -/
theorem C5_zero_products_short_circuit (env : CrawlEnv) (keyword : String)
    (h : env.searchResults = []) :
    crawl_amazon env keyword =
      { products := [], reviews := [], summary := none,
        savedFiles := none } := by
  simp [crawl_amazon, h]

/-- C5 witness for the amended claim. -/
theorem C5_zero_products_short_circuit_witness :
    CrawlEnv.searchResults
      ⟨[], fun _ => [], fun _ => none, true, true, "t"⟩ = [] ∧
    crawl_amazon ⟨[], fun _ => [], fun _ => none, true, true, "t"⟩
        "usb hub" =
      { products := [], reviews := [], summary := none,
        savedFiles := none } :=
  ⟨rfl, C5_zero_products_short_circuit
    ⟨[], fun _ => [], fun _ => none, true, true, "t"⟩ "usb hub" rfl⟩

theorem process_products_go_get? (keyword now : String) :
    ∀ (ps : List RawProduct) (n i : Nat) (p : Product),
      (process_products_go keyword now n ps).get? i = some p →
      p.product_id = n + i + 1 := by
  intro ps
  induction ps with
  | nil => intro n i p h; simp [process_products_go] at h
  | cons q rest ih =>
    intro n i p h
    cases i with
    | zero =>
      rw [process_products_go, List.get?_cons_zero, Option.some_inj] at h
      rw [← h]
    | succ i' =>
      rw [process_products_go, List.get?_cons_succ] at h
      have := ih (n + 1) i' p h
      omega

/-- C6 counterexample: the product dict built from a search-result element has
    exactly the keys title, price, rating, url — no rank key — and the
    orchestrator's enrichment adds only product_title and product_url to a
    review dict — no product_rank key. -/
theorem C6_no_rank_field_cex :
    (extract_product_data ⟨fun _ => none, []⟩ 0).map Prod.fst =
      ["title", "price", "rating", "url"] ∧
    ((extract_product_data ⟨fun _ => none, []⟩ 0).map Prod.fst).contains
      "rank" = false ∧
    (enrich_review_dict (extract_review_data ⟨fun _ => none, []⟩) "Mouse"
      "https://www.amazon.com/dp/B01").map Prod.fst =
      ["review_text", "star_rating", "review_date", "reviewer_nickname",
       "review_title", "product_title", "product_url"] ∧
    ((enrich_review_dict (extract_review_data ⟨fun _ => none, []⟩) "Mouse"
      "https://www.amazon.com/dp/B01").map Prod.fst).contains
      "product_rank" = false :=
  ⟨rfl, rfl, rfl, rfl⟩

/-- C6 amended: the extractor's product dict carries exactly
    title/price/rating/url (no rank); the 1-based ordinal is the product_id
    that process_products_data assigns by position; and the orchestrator's
    review enrichment adds exactly product_title and product_url (no
    product_rank). -/
theorem C6_ordinal_and_enrichment (el : ProductElement) (index : Nat)
    (elR : ReviewElement) (title url : String)
    (products : List RawProduct) (keyword now : String) (i : Nat)
    (p : Product)
    (hp : (process_products_data products keyword now).get? i = some p) :
    (extract_product_data el index).map Prod.fst =
      ["title", "price", "rating", "url"] ∧
    p.product_id = i + 1 ∧
    (enrich_review_dict (extract_review_data elR) title url).map Prod.fst =
      ["review_text", "star_rating", "review_date", "reviewer_nickname",
       "review_title", "product_title", "product_url"] := by
  refine ⟨rfl, ?_, rfl⟩
  have := process_products_go_get? keyword now products 0 i p hp
  omega

/-- C6 witness for the amended claim. -/
theorem C6_ordinal_and_enrichment_witness :
    (process_products_data [⟨"Mouse", "$10", "4.5", "u"⟩] "mouse" "t").get?
      0 = some ⟨1, "mouse", "Mouse", "$10", "4.5", "u", "t"⟩ ∧
    ((extract_product_data ⟨fun _ => none, []⟩ 3).map Prod.fst =
      ["title", "price", "rating", "url"] ∧
    Product.product_id ⟨1, "mouse", "Mouse", "$10", "4.5", "u", "t"⟩ =
      0 + 1 ∧
    (enrich_review_dict (extract_review_data ⟨fun _ => none, []⟩) "Mouse"
      "u").map Prod.fst =
      ["review_text", "star_rating", "review_date", "reviewer_nickname",
       "review_title", "product_title", "product_url"]) :=
  ⟨rfl, C6_ordinal_and_enrichment ⟨fun _ => none, []⟩ 3 ⟨fun _ => none, []⟩
    "Mouse" "u" [⟨"Mouse", "$10", "4.5", "u"⟩] "mouse" "t" 0
    ⟨1, "mouse", "Mouse", "$10", "4.5", "u", "t"⟩ rfl⟩

/-- C7 counterexample: every direct locator fails and the only anchor carries
    a url= query parameter whose percent-decoded value is a product path, but
    the anchor's address does not contain "sspa/click": the extraction
    returns the sentinel, not the decoded target the claim requires for any
    address with a url= parameter. -/
theorem C7_url_param_without_sspa_cex :
    extract_product_url (fun _ => none)
      [⟨"", none, none, some "https://ex.com/r?url=%2Fdp%2FB01"⟩] 0 =
      "N/A" ∧
    firstParamValue "url".toList
      (queryOf "https://ex.com/r?url=%2Fdp%2FB01".toList) =
      some "/dp/B01".toList ∧
    hasProductMarker "/dp/B01".toList = true :=
  ⟨rfl, by decide, by decide⟩

/-- C7 amended: when every direct URL locator fails, the anchor scan is a
    first-yield scan over the per-anchor rule whose redirect-wrapper pattern
    is the presence of "sspa/click" in the address; a wrapper anchor yields
    the percent-decoded url= parameter when the decoded value contains a
    product-path marker, a non-wrapper anchor yields its address when it
    directly contains a marker, and with no yield the sentinel is returned. -/
theorem C7_redirect_unwrap_amended (find : String → Option DomElem)
    (links : List DomElem) (index : Nat)
    (h : tryDirectSelectors find PRODUCT_URL_SELECTORS = none) :
    extract_product_url find links index =
      (links.findSome? anchorYieldAmended).getD "N/A" := by
  have hstep : ∀ (link : DomElem) (rest : List DomElem),
      scanLinks (link :: rest) =
        match anchorYieldAmended link with
        | some u => some u
        | none => scanLinks rest := by
    intro link rest
    cases hh : link.href with
    | none => simp [scanLinks, anchorYieldAmended, hh]
    | some s =>
      simp only [scanLinks, anchorYieldAmended, hh]
      split_ifs with h1 h2
      · cases hfp : firstParamValue "url".toList (queryOf s.toList) with
        | none => simp
        | some enc =>
          by_cases hm : hasProductMarker (pyUnquoteList enc) = true
          · simp [hm]
          · simp [hm]
      · rfl
      · rfl
  have hscan : ∀ ls : List DomElem,
      scanLinks ls = ls.findSome? anchorYieldAmended := by
    intro ls
    induction ls with
    | nil => rfl
    | cons l rest ih =>
      rw [hstep l rest, List.findSome?_cons, ih]
      cases anchorYieldAmended l <;> rfl
  simp only [extract_product_url, h]
  rw [hscan links]
  cases hres : links.findSome? anchorYieldAmended <;> simp

/-- C7 witness for the amended claim: a sponsored wrapper anchor is unwrapped
    to its decoded target. -/
theorem C7_redirect_unwrap_amended_witness :
    tryDirectSelectors (fun _ => none) PRODUCT_URL_SELECTORS = none ∧
    extract_product_url (fun _ => none)
      [⟨"", none, none,
        some "https://www.amazon.com/sspa/click?ie=UTF8&url=%2Fdp%2FB09"⟩]
      0 =
      (([⟨"", none, none,
        some "https://www.amazon.com/sspa/click?ie=UTF8&url=%2Fdp%2FB09"⟩] :
          List DomElem).findSome? anchorYieldAmended).getD "N/A" :=
  ⟨rfl, C7_redirect_unwrap_amended (fun _ => none) _ 0 rfl⟩

/-- C8: the authenticated-session check is true only when some lowercase
    indicator occurs in the lowercased page source AND the address avoids the
    sign-in marker; whenever the address contains "signin" the check is false
    regardless of page content. -/
theorem C8_signin_address_wins (pageSource currentUrl : String) :
    (is_logged_in pageSource currentUrl = true →
      LOGIN_INDICATORS.any
        (fun ind => subList ind.toList (pyLower pageSource.toList)) = true ∧
      subList "signin".toList (pyLower currentUrl.toList) = false) ∧
    (subList "signin".toList currentUrl.toList = true →
      is_logged_in pageSource currentUrl = false) := by
  constructor
  · intro h
    simp only [is_logged_in, Bool.and_eq_true, Bool.not_eq_true'] at h
    exact ⟨h.1, h.2.1⟩
  · intro h
    have h2 := subList_map Char.toLower "signin".toList currentUrl.toList h
    rw [show ("signin".toList).map Char.toLower = "signin".toList by decide]
      at h2
    simp only [is_logged_in, pyLower]
    rw [h2]
    simp

/-- C8 witness: a sign-in address overrides a page source full of login
    indicators. -/
theorem C8_signin_address_wins_witness :
    subList "signin".toList "https://www.amazon.com/ap/signin".toList =
      true ∧
    is_logged_in "hello, alice   account & lists"
      "https://www.amazon.com/ap/signin" = false :=
  ⟨by decide,
   (C8_signin_address_wins "hello, alice   account & lists"
     "https://www.amazon.com/ap/signin").2 (by decide)⟩

/- ------------------------------------------------------------------ -/
/- Lemmas about the organized product-review structure (C9, C10).      -/
/- ------------------------------------------------------------------ -/

theorem entryShape_addReview (f' : String → Option String) (r : Review)
    (es : List (String × ProductEntry)) :
    entryShape (addReviewToEntries f' es r) = entryShape es := by
  unfold addReviewToEntries
  cases hk : findMatchKey es r with
  | none => rfl
  | some k =>
    simp only [entryShape, List.map_map]
    apply List.map_congr_left
    intro e _
    cases he : e.1 == k <;> simp [Function.comp, he]

theorem entryShape_foldl_addReview (f' : String → Option String) :
    ∀ (rs : List Review) (es : List (String × ProductEntry)),
      entryShape (rs.foldl (addReviewToEntries f') es) = entryShape es := by
  intro rs
  induction rs with
  | nil => intro es; rfl
  | cons r rest ih =>
    intro es
    rw [List.foldl_cons, ih, entryShape_addReview]

theorem entryShape_organize (f' : String → Option String)
    (products : List Product) (reviews : List Review) :
    entryShape (organize_products_with_reviews f' products reviews) =
      entryShape (initEntries products) :=
  entryShape_foldl_addReview f' reviews (initEntries products)

theorem findMatchKey_shape (r : Review) :
    ∀ (es es' : List (String × ProductEntry)),
      entryShape es = entryShape es' →
      findMatchKey es r = findMatchKey es' r := by
  intro es
  induction es with
  | nil =>
    intro es' h
    cases es' with
    | nil => rfl
    | cons e t => simp [entryShape] at h
  | cons e t ih =>
    intro es' h
    cases es' with
    | nil => simp [entryShape] at h
    | cons e' t' =>
      simp only [entryShape, List.map_cons, List.cons.injEq,
        Prod.mk.injEq] at h
      obtain ⟨⟨h1, h2⟩, htail⟩ := h
      simp only [findMatchKey, h1, h2]
      cases hc : (r.product_title == e'.2.product_data.title
          || r.product_url == e'.2.product_data.url) <;>
        simp [hc, ih t' htail]

theorem findMatchKey_initGo_none (r : Review) :
    ∀ (ps : List Product) (base : Nat),
      (∀ q ∈ ps, r.product_title ≠ q.title ∧ r.product_url ≠ q.url) →
      findMatchKey (initEntriesGo base ps) r = none := by
  intro ps
  induction ps with
  | nil => intro base _; rfl
  | cons q rest ih =>
    intro base h
    have hq := h q (List.mem_cons_self q rest)
    have hcond : (r.product_title == q.title || r.product_url == q.url) =
        false := by
      simp [beq_eq_false_iff_ne.mpr hq.1, beq_eq_false_iff_ne.mpr hq.2]
    simp only [initEntriesGo, findMatchKey, hcond, Bool.false_eq_true,
      if_false]
    exact ih (base + 1) (fun q' hq' => h q' (List.mem_cons_of_mem q hq'))

theorem addReview_noMatch (f' : String → Option String)
    (es : List (String × ProductEntry)) (r : Review)
    (h : findMatchKey es r = none) :
    addReviewToEntries f' es r = es := by
  simp [addReviewToEntries, h]

theorem organize_append (f' : String → Option String)
    (products : List Product) (rs₁ rs₂ : List Review) :
    organize_products_with_reviews f' products (rs₁ ++ rs₂) =
      rs₂.foldl (addReviewToEntries f')
        (organize_products_with_reviews f' products rs₁) := by
  simp [organize_products_with_reviews, List.foldl_append]

theorem entryShape_fst (es : List (String × ProductEntry)) :
    (entryShape es).map Prod.fst = es.map Prod.fst := by
  simp only [entryShape, List.map_map]
  rfl

theorem initEntriesGo_get? :
    ∀ (ps : List Product) (base i : Nat) (p : Product),
      ps.get? i = some p →
      (initEntriesGo base ps).get? i =
        some ("product_" ++ toString (base + i + 1),
          { product_data := p, reviews := [] }) := by
  intro ps
  induction ps with
  | nil => intro base i p h; simp at h
  | cons q rest ih =>
    intro base i p h
    cases i with
    | zero =>
      rw [List.get?_cons_zero, Option.some_inj] at h
      subst h
      rfl
    | succ i' =>
      rw [List.get?_cons_succ] at h
      rw [initEntriesGo, List.get?_cons_succ, ih (base + 1) i' p h]
      have harg : base + 1 + i' + 1 = base + (i' + 1) + 1 := by omega
      rw [harg]

theorem findMatchKey_go_first (r : Review) :
    ∀ (ps : List Product) (base i : Nat) (p : Product),
      ps.get? i = some p →
      (r.product_title = p.title ∨ r.product_url = p.url) →
      (∀ j, j < i → ∀ q, ps.get? j = some q →
        r.product_title ≠ q.title ∧ r.product_url ≠ q.url) →
      findMatchKey (initEntriesGo base ps) r =
        some ("product_" ++ toString (base + i + 1)) := by
  intro ps
  induction ps with
  | nil => intro base i p hi; simp at hi
  | cons q rest ih =>
    intro base i p hi hm hf
    cases i with
    | zero =>
      rw [List.get?_cons_zero, Option.some_inj] at hi
      subst hi
      have hcond : (r.product_title == q.title || r.product_url == q.url) =
          true := by
        cases hm with
        | inl h' => simp [h']
        | inr h' => simp [h']
      simp [initEntriesGo, findMatchKey, hcond]
    | succ i' =>
      rw [List.get?_cons_succ] at hi
      have hq := hf 0 (Nat.succ_pos i') q List.get?_cons_zero
      have hcond : (r.product_title == q.title || r.product_url == q.url) =
          false := by
        simp [beq_eq_false_iff_ne.mpr hq.1, beq_eq_false_iff_ne.mpr hq.2]
      simp only [initEntriesGo, findMatchKey, hcond, Bool.false_eq_true,
        if_false]
      have hrec := ih (base + 1) i' p hi hm
        (fun j hj q' hq' => hf (j + 1) (Nat.succ_lt_succ hj) q'
          (by rw [List.get?_cons_succ]; exact hq'))
      rw [hrec]
      have harg : base + 1 + i' + 1 = base + (i' + 1) + 1 := by omega
      rw [harg]

theorem bucketGet_appendReviewBucket (k : String) (r : Review) :
    ∀ b : List (String × List Review),
      r ∈ bucketGet (appendReviewBucket b k r) k := by
  intro b
  induction b with
  | nil => simp [appendReviewBucket, bucketGet]
  | cons x rest ih =>
    by_cases hx : x.1 = k
    · have hany : ((x :: rest).any fun b => b.1 == k) = true := by
        simp [List.any_cons, hx]
      simp [appendReviewBucket, bucketGet, List.any_cons, hany, hx]
    · have hx' : (x.1 == k) = false := beq_eq_false_iff_ne.mpr hx
      by_cases hany : (rest.any fun b => b.1 == k) = true
      · have hrw : appendReviewBucket rest k r =
            rest.map (fun b => if b.1 == k then (b.1, b.2 ++ [r]) else b) := by
          simp [appendReviewBucket, hany]
        have hih := ih
        rw [hrw] at hih
        simpa [appendReviewBucket, bucketGet, List.any_cons, hx', hany, hx]
          using hih
      · have hany' : (rest.any fun b => b.1 == k) = false := by
          cases hb : rest.any fun b => b.1 == k
          · rfl
          · exact absurd hb hany
        have hrw : appendReviewBucket rest k r = rest ++ [(k, [r])] := by
          simp [appendReviewBucket, hany']
        have hih := ih
        rw [hrw] at hih
        simpa [appendReviewBucket, bucketGet, List.any_cons, hx', hany',
          hx] using hih

/-- C9 counterexample: a review whose product_title matches the product but
    whose product_url does not is still attached to that product — the code
    matches on title OR url, not on the (title, url) pair. -/
theorem C9_or_match_cex :
    organize_products_with_reviews (fun _ => none)
      [⟨1, "kw", "Mouse", "$10", "4.5", "u1", "t"⟩]
      [⟨1, "Mouse", "u2", "good", "N/A", "d", "alice", "T", "t"⟩] =
      [("product_1",
        ⟨⟨1, "kw", "Mouse", "$10", "4.5", "u1", "t"⟩,
         [("unknown",
           [⟨1, "Mouse", "u2", "good", "N/A", "d", "alice", "T", "t"⟩])]⟩)] ∧
    Review.product_url
        ⟨1, "Mouse", "u2", "good", "N/A", "d", "alice", "T", "t"⟩ ≠
      Product.url ⟨1, "kw", "Mouse", "$10", "4.5", "u1", "t"⟩ :=
  ⟨rfl, by decide⟩

/-- C9 amended: a review is attached to the first product (in listing order)
    whose title equals the review's product_title OR whose url equals the
    review's product_url; it lands in that product's entry under the star
    bucket of its star rating. -/
theorem C9_first_or_match (f' : String → Option String)
    (products : List Product) (reviews : List Review) (r : Review)
    (i : Nat) (p : Product)
    (hi : products.get? i = some p)
    (hm : r.product_title = p.title ∨ r.product_url = p.url)
    (hf : ∀ j, j < i → ∀ q, products.get? j = some q →
      r.product_title ≠ q.title ∧ r.product_url ≠ q.url) :
    ∃ e : ProductEntry,
      (organize_products_with_reviews f' products (reviews ++ [r])).get? i =
        some ("product_" ++ toString (i + 1), e) ∧
      e.product_data = p ∧
      r ∈ bucketGet e.reviews (star_key_of f' r.star_rating) := by
  have hkey : findMatchKey
      (organize_products_with_reviews f' products reviews) r =
      some ("product_" ++ toString (i + 1)) := by
    rw [findMatchKey_shape r
      (organize_products_with_reviews f' products reviews)
      (initEntries products) (entryShape_organize f' products reviews)]
    have h0 := findMatchKey_go_first r products 0 i p hi hm hf
    simpa using h0
  have h1 : (entryShape
      (organize_products_with_reviews f' products reviews)).get? i =
      some ("product_" ++ toString (i + 1), p) := by
    rw [entryShape_organize f' products reviews]
    simp only [initEntries, entryShape]
    rw [List.get?_map, initEntriesGo_get? products 0 i p hi]
    simp
  rw [entryShape, List.get?_map] at h1
  rcases Option.map_eq_some'.mp h1 with ⟨a, ha, hsh⟩
  simp only [Prod.mk.injEq] at hsh
  obtain ⟨ha1, ha2⟩ := hsh
  refine ⟨{ product_data := a.2.product_data,
            reviews := appendReviewBucket a.2.reviews
              (star_key_of f' r.star_rating) r }, ?_, ha2, ?_⟩
  · rw [organize_append f' products reviews [r], List.foldl_cons,
      List.foldl_nil]
    simp only [addReviewToEntries, hkey]
    rw [List.get?_map, ha]
    simp [ha1]
  · exact bucketGet_appendReviewBucket _ r _

/-- C9 witness for the amended claim. -/
theorem C9_first_or_match_witness :
    ([⟨1, "kw", "Mouse", "$10", "4.5", "u1", "t"⟩] : List Product).get? 0 =
      some ⟨1, "kw", "Mouse", "$10", "4.5", "u1", "t"⟩ ∧
    (∃ e : ProductEntry,
      (organize_products_with_reviews (fun _ => none)
        [⟨1, "kw", "Mouse", "$10", "4.5", "u1", "t"⟩]
        ([] ++ [⟨1, "Mouse", "u1", "good", "N/A", "d", "bob", "T", "t"⟩])).get?
        0 = some ("product_" ++ toString (0 + 1), e) ∧
      e.product_data = ⟨1, "kw", "Mouse", "$10", "4.5", "u1", "t"⟩ ∧
      (⟨1, "Mouse", "u1", "good", "N/A", "d", "bob", "T", "t"⟩ : Review) ∈
        bucketGet e.reviews (star_key_of (fun _ => none) "N/A")) :=
  ⟨rfl, C9_first_or_match (fun _ => none)
    [⟨1, "kw", "Mouse", "$10", "4.5", "u1", "t"⟩] []
    ⟨1, "Mouse", "u1", "good", "N/A", "d", "bob", "T", "t"⟩ 0
    ⟨1, "kw", "Mouse", "$10", "4.5", "u1", "t"⟩ rfl (Or.inl rfl)
    (fun j hj q hq => absurd hj (by omega))⟩

/-- C10: a review whose product_title and product_url match no product entry
    is silently dropped: organizing with it yields the same structure as
    organizing without it (hence identical summary totals and star
    distribution), and the organized mapping's keys stay exactly the product
    keys — there is no unmatched bucket. -/
theorem C10_unmatched_review_dropped (f' : String → Option String)
    (products : List Product) (rs₁ rs₂ : List Review) (r : Review)
    (now : String)
    (h : ∀ q ∈ products, r.product_title ≠ q.title ∧
      r.product_url ≠ q.url) :
    organize_products_with_reviews f' products (rs₁ ++ r :: rs₂) =
      organize_products_with_reviews f' products (rs₁ ++ rs₂) ∧
    (organize_products_with_reviews f' products (rs₁ ++ r :: rs₂)).map
      Prod.fst = (initEntries products).map Prod.fst ∧
    get_data_summary_from_organized
        (organize_products_with_reviews f' products (rs₁ ++ r :: rs₂)) now =
      get_data_summary_from_organized
        (organize_products_with_reviews f' products (rs₁ ++ rs₂)) now := by
  have hnone : findMatchKey
      (organize_products_with_reviews f' products rs₁) r = none := by
    rw [findMatchKey_shape r (organize_products_with_reviews f' products rs₁)
      (initEntries products) (entryShape_organize f' products rs₁)]
    exact findMatchKey_initGo_none r products 0 h
  have hmain : organize_products_with_reviews f' products (rs₁ ++ r :: rs₂) =
      organize_products_with_reviews f' products (rs₁ ++ rs₂) := by
    rw [organize_append f' products rs₁ (r :: rs₂),
      organize_append f' products rs₁ rs₂, List.foldl_cons,
      addReview_noMatch f' _ r hnone]
  have hfst : (organize_products_with_reviews f' products
      (rs₁ ++ r :: rs₂)).map Prod.fst =
      (initEntries products).map Prod.fst := by
    rw [← entryShape_fst, ← entryShape_fst (initEntries products)]
    exact congrArg (List.map Prod.fst)
      (entryShape_organize f' products (rs₁ ++ r :: rs₂))
  exact ⟨hmain, hfst, by rw [hmain]⟩

/-- C10 witness: an unmatched review leaves the organized structure, its key
    set, and the summary unchanged. -/
theorem C10_unmatched_review_dropped_witness :
    (∀ q ∈ ([⟨1, "kw", "Mouse", "$10", "4.5", "u1", "t"⟩] : List Product),
      Review.product_title
          ⟨1, "Widget", "u9", "bad", "N/A", "d", "eve", "T", "t"⟩ ≠
        q.title ∧
      Review.product_url
          ⟨1, "Widget", "u9", "bad", "N/A", "d", "eve", "T", "t"⟩ ≠
        q.url) ∧
    (organize_products_with_reviews (fun _ => none)
        [⟨1, "kw", "Mouse", "$10", "4.5", "u1", "t"⟩]
        ([] ++ ⟨1, "Widget", "u9", "bad", "N/A", "d", "eve", "T", "t"⟩ ::
          []) =
      organize_products_with_reviews (fun _ => none)
        [⟨1, "kw", "Mouse", "$10", "4.5", "u1", "t"⟩] ([] ++ []) ∧
    (organize_products_with_reviews (fun _ => none)
        [⟨1, "kw", "Mouse", "$10", "4.5", "u1", "t"⟩]
        ([] ++ ⟨1, "Widget", "u9", "bad", "N/A", "d", "eve", "T", "t"⟩ ::
          [])).map Prod.fst =
      (initEntries [⟨1, "kw", "Mouse", "$10", "4.5", "u1", "t"⟩]).map
        Prod.fst ∧
    get_data_summary_from_organized
        (organize_products_with_reviews (fun _ => none)
          [⟨1, "kw", "Mouse", "$10", "4.5", "u1", "t"⟩]
          ([] ++ ⟨1, "Widget", "u9", "bad", "N/A", "d", "eve", "T", "t"⟩ ::
            [])) "t" =
      get_data_summary_from_organized
        (organize_products_with_reviews (fun _ => none)
          [⟨1, "kw", "Mouse", "$10", "4.5", "u1", "t"⟩] ([] ++ [])) "t") :=
  ⟨by decide, C10_unmatched_review_dropped (fun _ => none)
    [⟨1, "kw", "Mouse", "$10", "4.5", "u1", "t"⟩] [] []
    ⟨1, "Widget", "u9", "bad", "N/A", "d", "eve", "T", "t"⟩ "t"
    (by decide)⟩
